import Mathlib

/-!
Verification of the Bear GitOps Payment Service (src/app/main.py).

The service translates a configured database connection pool size into
artificial request latency.  We embed the configuration data model, the
latency tiers of `calculate_latency`, the `/health`, `/config` and
`/reload` endpoints, and the `process_payment` handler.  Randomness
(`random.uniform(0, w)`) is embedded as `r * w` for a draw `r ∈ [0, 1)`
passed explicitly; wall-clock time is passed explicitly as well.
Following the spec's scoping, the external YAML source is embedded as an
`Option Config` (absent, or already parsed into a configuration).
-/

/-- The `database` section of the configuration; the
`connection_pool_size` key may be absent (`config.get(...)` fallback). -/
structure Database where
  connection_pool_size : Option Int
deriving DecidableEq, Repr

/-- The `service` section of the configuration. -/
structure Service where
  timeout_ms : Option Int
  version : Option String
deriving DecidableEq, Repr

/-- A configuration snapshot; each section may be absent, matching
`config.get("database", {})` / `config.get("service", {})`. -/
structure Config where
  database : Option Database
  service : Option Service
deriving DecidableEq, Repr

/-- `config.get("database", {}).get("connection_pool_size", 50)`:
the raw lookup, `none` when the section or the key is missing. -/
def poolSizeRaw (c : Config) : Option Int :=
  c.database.bind (fun d => d.connection_pool_size)

/-- `config.get("database", {}).get("connection_pool_size", 50)`. -/
def getPoolSize (c : Config) : Int :=
  (poolSizeRaw c).getD 50

/-- `config.get("service", {}).get("version", "1.0.0")`. -/
def getVersion (c : Config) : String :=
  (c.service.bind (fun s => s.version)).getD "1.0.0"

/-- The hardcoded default returned by `load_config` when the YAML file
is absent: `{"database": {"connection_pool_size": 50}, "service": {"timeout_ms": 100}}`. -/
def defaultConfig : Config :=
  { database := some { connection_pool_size := some 50 }
    service := some { timeout_ms := some 100, version := none } }

/-- `load_config()`: if `CONFIG_PATH.exists()` return the parsed YAML,
otherwise return the hardcoded default.  The external source is the
`Option Config` argument. -/
def load_config (src : Option Config) : Config :=
  match src with
  | some c => c
  | none => defaultConfig

/-- `calculate_latency()`: three latency tiers keyed on the pool size,
with the uniform draw `random.uniform(0, w)` embedded as `r * w`. -/
def calculate_latency (c : Config) (r : ℚ) : ℚ :=
  let pool_size := getPoolSize c
  if pool_size < 10 then
    2000 + r * 3000
  else if pool_size < 25 then
    500 + r * 1000
  else
    10 + r * 40

/-- The `config` object of the `/health` response body. -/
structure HealthConfigInfo where
  connection_pool_size : Int
  warning : Option String
deriving DecidableEq, Repr

/-- The `/health` response body. -/
structure HealthResponse where
  status : String
  service : String
  version : String
  config : HealthConfigInfo
deriving DecidableEq, Repr

/-- The `health()` endpoint. -/
def health (c : Config) : HealthResponse :=
  let pool_size := getPoolSize c
  { status := if pool_size ≥ 25 then "healthy" else "degraded"
    service := "payment-service"
    version := getVersion c
    config :=
      { connection_pool_size := pool_size
        warning := if pool_size < 25 then some "Pool size too low!" else none } }

/-- Server state: the global `config` variable. -/
structure ServerState where
  config : Config
deriving DecidableEq, Repr

/-- The `get_config()` endpoint (`GET /config`): returns the current
configuration as-is. -/
def get_config (s : ServerState) : Config :=
  s.config

/-- The `/reload` response body. -/
structure ReloadResponse where
  status : String
  config : Config
deriving DecidableEq, Repr

/-- The `reload_config()` endpoint: re-runs `load_config` against the
source, publishes it as the global config, and returns it. -/
def reload_config (src : Option Config) (_s : ServerState) :
    ReloadResponse × ServerState :=
  let c := load_config src
  ({ status := "reloaded", config := c }, { config := c })

/-- The request body of `POST /api/v1/payments`. -/
structure PaymentRequest where
  amount : ℚ
  currency : String
  customer_id : String
  order_id : String
deriving DecidableEq, Repr

/-- The `PaymentResponse` model. -/
structure PaymentResponse where
  transaction_id : String
  status : String
  message : String
  processing_time_ms : ℚ
deriving DecidableEq, Repr

/-- The final block of `process_payment` (lines 182-193): wall-clock
elapsed time is `end_time - start_time` in seconds, scaled to ms; the
transaction id is `f"txn_{payment.order_id}_{int(time.time())}"` with
`tsec` the integer unix seconds at that point.  `end_time` is
`start_time` plus the two awaited sleeps (`latency / 1000` seconds and
`0.01` seconds) plus a nonnegative scheduling overhead `sched`. -/
def mkPaymentResponse (payment : PaymentRequest) (latency t0 sched : ℚ)
    (tsec : Int) : PaymentResponse :=
  let end_time := t0 + latency / 1000 + 1 / 100 + sched
  { transaction_id := "txn_" ++ payment.order_id ++ "_" ++ toString tsec
    status := "success"
    message := "Payment processed successfully"
    processing_time_ms := (end_time - t0) * 1000 }

/-- Everything `process_payment` makes observable: the root-span
attribute `db.connection_pool_size`, the child-span attribute
`latency_ms`, whether `warning=connection_pool_exhausted` was attached,
and the HTTP response. -/
structure PaymentTrace where
  spanPoolSize : Int
  acquireLatency : ℚ
  exhaustedWarning : Bool
  response : PaymentResponse
deriving DecidableEq, Repr

/-- `process_payment()` run without any interleaved reload: the global
config is `cfg` throughout, read at line 165 for the span attribute and
re-read (unchanged) inside `calculate_latency` at line 170. -/
def process_payment (payment : PaymentRequest) (cfg : Config)
    (r t0 sched : ℚ) (tsec : Int) : PaymentTrace :=
  let pool_size := getPoolSize cfg
  let latency := calculate_latency cfg r
  { spanPoolSize := pool_size
    acquireLatency := latency
    exhaustedWarning := decide (pool_size < 10)
    response := mkPaymentResponse payment latency t0 sched tsec }

/-!
Interleaving model for `process_payment` under asyncio's cooperative
scheduling.  The handler suspends only at its two `await asyncio.sleep`
calls (lines 176 and 180); the code between suspensions runs atomically
on the single event loop.  `segA` is lines 156-174 (both config reads,
the latency computation and the exhaustion check), `segB` is the fixed
10ms sleep, `segC` is the response construction.  A `/reload` handler
may run at any suspension point, swapping the global config.
-/

/-- Program counter of the payment coroutine: not yet run, suspended in
the first sleep, suspended in the second sleep, finished. -/
inductive PC where
  | start
  | sleep1
  | sleep2
  | done
deriving DecidableEq, Repr

/-- Global config plus the payment coroutine's control point, its
recorded span data and its response (when reached). -/
structure OpState where
  config : Config
  pc : PC
  spanPool : Option Int
  latencyMs : Option ℚ
  exhausted : Option Bool
  resp : Option PaymentResponse
deriving DecidableEq, Repr

/-- Initial state: global config `g0`, payment coroutine not yet run. -/
def opInit (g0 : Config) : OpState :=
  { config := g0, pc := PC.start, spanPool := none, latencyMs := none
    exhausted := none, resp := none }

/-- One scheduler step: either the payment coroutine runs its next
atomic segment, or a reload runs while the coroutine is suspended
(which, segments being atomic, means between any two segments). -/
inductive OpStep (payment : PaymentRequest) (r t0 sched : ℚ) (tsec : Int) :
    OpState → OpState → Prop where
  | segA (s : OpState) (h : s.pc = PC.start) :
      OpStep payment r t0 sched tsec s
        { s with pc := PC.sleep1
                 spanPool := some (getPoolSize s.config)
                 latencyMs := some (calculate_latency s.config r)
                 exhausted := some (decide (getPoolSize s.config < 10)) }
  | segB (s : OpState) (h : s.pc = PC.sleep1) :
      OpStep payment r t0 sched tsec s { s with pc := PC.sleep2 }
  | segC (s : OpState) (l : ℚ) (h : s.pc = PC.sleep2)
      (hl : s.latencyMs = some l) :
      OpStep payment r t0 sched tsec s
        { s with pc := PC.done
                 resp := some (mkPaymentResponse payment l t0 sched tsec) }
  | reload (s : OpState) (src : Option Config) :
      OpStep payment r t0 sched tsec s { s with config := load_config src }

/-- A run is a finite sequence of scheduler steps. -/
def OpRun (payment : PaymentRequest) (r t0 sched : ℚ) (tsec : Int) :
    OpState → OpState → Prop :=
  Relation.ReflTransGen (OpStep payment r t0 sched tsec)


/-! ## Claim theorems -/

/-- C1: for every pool size, `calculate_latency` returns a delay in the
tier ranges the spec states: pool size in `[0, 9]` yields a value in
`[2000, 5000)` ms, pool size in `[10, 24]` yields a value in
`[500, 1500)` ms, and pool size `≥ 25` yields a value in `[10, 50)` ms;
the boundary values 10 and 25 fall into the lower-latency tier. -/
theorem calculate_latency_tier_ranges (cfg : Config) (r : ℚ)
    (hr0 : 0 ≤ r) (hr1 : r < 1) :
    (0 ≤ getPoolSize cfg ∧ getPoolSize cfg ≤ 9 →
      2000 ≤ calculate_latency cfg r ∧ calculate_latency cfg r < 5000) ∧
    (10 ≤ getPoolSize cfg ∧ getPoolSize cfg ≤ 24 →
      500 ≤ calculate_latency cfg r ∧ calculate_latency cfg r < 1500) ∧
    (25 ≤ getPoolSize cfg →
      10 ≤ calculate_latency cfg r ∧ calculate_latency cfg r < 50) := by
  refine ⟨fun h => ?_, fun h => ?_, fun h => ?_⟩
  · have hlt : getPoolSize cfg < 10 := by omega
    simp only [calculate_latency, if_pos hlt]
    constructor <;> nlinarith
  · have hge : ¬ getPoolSize cfg < 10 := by omega
    have hlt : getPoolSize cfg < 25 := by omega
    simp only [calculate_latency, if_neg hge, if_pos hlt]
    constructor <;> nlinarith
  · have hge : ¬ getPoolSize cfg < 10 := by omega
    have hge2 : ¬ getPoolSize cfg < 25 := by omega
    simp only [calculate_latency, if_neg hge, if_neg hge2]
    constructor <;> nlinarith

/-- A configuration whose `database.connection_pool_size` key holds `n`,
with no `service` section; used as concrete test input. -/
def cfgPool (n : Int) : Config :=
  { database := some { connection_pool_size := some n }, service := none }

/-- Witness for C1: at the boundary pool size 10 with draw `r = 1/2`,
the hypotheses hold and the delay lands in the moderate tier. -/
theorem calculate_latency_tier_ranges_witness :
    (0 ≤ (1 / 2 : ℚ) ∧ (1 / 2 : ℚ) < 1) ∧
    500 ≤ calculate_latency (cfgPool 10) (1 / 2) ∧
    calculate_latency (cfgPool 10) (1 / 2) < 1500 :=
  ⟨⟨by norm_num, by norm_num⟩,
    (calculate_latency_tier_ranges (cfgPool 10) (1 / 2) (by norm_num)
      (by norm_num)).2.1 ⟨by decide, by decide⟩⟩

/-- C3: `process_payment` is total on validated requests and always
returns status `"success"` with message `"Payment processed
successfully"`; no operation-level error exists. -/
theorem process_payment_always_success (payment : PaymentRequest)
    (cfg : Config) (r t0 sched : ℚ) (tsec : Int) :
    (process_payment payment cfg r t0 sched tsec).response.status =
      "success" ∧
    (process_payment payment cfg r t0 sched tsec).response.message =
      "Payment processed successfully" :=
  ⟨rfl, rfl⟩

/-- C4: `/health` reports `"degraded"` exactly when the pool size is
below 25 and `"healthy"` exactly when it is at least 25 (so pool size
exactly 25 reports `"healthy"`). -/
theorem health_status_degraded_iff (cfg : Config) :
    ((health cfg).status = "degraded" ↔ getPoolSize cfg < 25) ∧
    ((health cfg).status = "healthy" ↔ 25 ≤ getPoolSize cfg) := by
  have hs : (health cfg).status =
      if 25 ≤ getPoolSize cfg then "healthy" else "degraded" := rfl
  rw [hs]
  by_cases h : 25 ≤ getPoolSize cfg
  · rw [if_pos h]
    exact ⟨⟨fun hc => absurd hc (by decide), fun hc => absurd hc (by omega)⟩,
      ⟨fun _ => h, fun _ => rfl⟩⟩
  · rw [if_neg h]
    exact ⟨⟨fun _ => by omega, fun _ => rfl⟩,
      ⟨fun hc => absurd hc (by decide), fun hc => absurd hc h⟩⟩

/-- C5: the transaction id is exactly
`"txn_" ++ order_id ++ "_" ++ toString tsec` (hence determined by the
order id and the unix seconds alone), and it always begins with
`"txn_"`. -/
theorem transaction_id_format (payment : PaymentRequest) (cfg : Config)
    (r t0 sched : ℚ) (tsec : Int) :
    (process_payment payment cfg r t0 sched tsec).response.transaction_id =
      "txn_" ++ payment.order_id ++ "_" ++ toString tsec ∧
    ∃ rest : String,
      (process_payment payment cfg r t0 sched tsec).response.transaction_id =
        "txn_" ++ rest := by
  refine ⟨rfl, payment.order_id ++ "_" ++ toString tsec, ?_⟩
  show "txn_" ++ payment.order_id ++ "_" ++ toString tsec =
    "txn_" ++ (payment.order_id ++ "_" ++ toString tsec)
  simp only [String.append_assoc]

/-- C7: `load_config` is total (it returns a configuration for every
source state rather than failing), and on an absent source it returns
the hardcoded default with pool size 50 and timeout 100. -/
theorem load_config_never_fails :
    load_config none = defaultConfig ∧
    poolSizeRaw (load_config none) = some 50 ∧
    ((load_config none).service.bind (fun s => s.timeout_ms)) = some 100 ∧
    ∀ src : Option Config, ∃ c : Config, load_config src = c :=
  ⟨rfl, rfl, rfl, fun src => ⟨load_config src, rfl⟩⟩

/-- C8: `/reload` responds with status `"reloaded"` and the newly
loaded configuration, and every subsequent read of the current
configuration (`GET /config`, the pool size, `/health`) observes
exactly that configuration. -/
theorem reload_config_publishes (src : Option Config) (s : ServerState) :
    (reload_config src s).1.status = "reloaded" ∧
    (reload_config src s).1.config = load_config src ∧
    get_config (reload_config src s).2 = load_config src ∧
    getPoolSize (get_config (reload_config src s).2) =
      getPoolSize (load_config src) ∧
    health (get_config (reload_config src s).2) =
      health (load_config src) :=
  ⟨rfl, rfl, rfl, rfl, rfl⟩

/-- C10: in every `/health` response the `config.warning` field is
`some "Pool size too low!"` exactly when the status is `"degraded"`,
both exactly when the pool size is below 25; with status `"healthy"`
the warning is `none`. -/
theorem health_warning_iff_degraded (cfg : Config) :
    ((health cfg).config.warning = some "Pool size too low!" ↔
      (health cfg).status = "degraded") ∧
    ((health cfg).config.warning = some "Pool size too low!" ↔
      getPoolSize cfg < 25) ∧
    ((health cfg).status = "healthy" ↔
      (health cfg).config.warning = none) := by
  have hs : (health cfg).status =
      if 25 ≤ getPoolSize cfg then "healthy" else "degraded" := rfl
  have hw : (health cfg).config.warning =
      if getPoolSize cfg < 25 then some "Pool size too low!" else none := rfl
  rw [hs, hw]
  by_cases h : getPoolSize cfg < 25
  · rw [if_pos h, if_neg (by omega)]
    refine ⟨⟨fun _ => rfl, fun _ => rfl⟩, ⟨fun _ => h, fun _ => rfl⟩,
      ⟨fun hc => absurd hc (by decide), fun hc => absurd hc (by simp)⟩⟩
  · rw [if_neg h, if_pos (by omega)]
    refine ⟨⟨fun hc => absurd hc (by simp), fun hc => absurd hc (by decide)⟩,
      ⟨fun hc => absurd hc (by simp), fun hc => absurd hc h⟩,
      ⟨fun _ => rfl, fun _ => rfl⟩⟩

/-- C6: the reported `processing_time_ms` is the wall-clock elapsed
time (`(end_time - start_time) * 1000`) and, the scheduling overhead
being nonnegative, it is at least the acquire delay plus the fixed
10 ms processing delay. -/
theorem processing_time_includes_suspensions (payment : PaymentRequest)
    (cfg : Config) (r t0 sched : ℚ) (tsec : Int) (hs : 0 ≤ sched) :
    (process_payment payment cfg r t0 sched tsec).response.processing_time_ms =
      (t0 + (process_payment payment cfg r t0 sched tsec).acquireLatency / 1000
        + 1 / 100 + sched - t0) * 1000 ∧
    (process_payment payment cfg r t0 sched tsec).acquireLatency + 10 ≤
      (process_payment payment cfg r t0 sched tsec).response.processing_time_ms := by
  constructor
  · rfl
  · show calculate_latency cfg r + 10 ≤
      (t0 + calculate_latency cfg r / 1000 + 1 / 100 + sched - t0) * 1000
    nlinarith [calculate_latency cfg r]

/-- The concrete payment request of the spec's end-to-end scenarios:
`{amount: 10.0, customer_id: "c1", order_id: "o1"}`. -/
def wPayment : PaymentRequest :=
  { amount := 10, currency := "USD", customer_id := "c1", order_id := "o1" }

/-- Witness for C6: with the default configuration, draw 0, start time
0 and no scheduling overhead, the elapsed 20 ms is at least the 10 ms
acquire delay plus the fixed 10 ms. -/
theorem processing_time_includes_suspensions_witness :
    0 ≤ (0 : ℚ) ∧
    (process_payment wPayment defaultConfig 0 0 0 0).acquireLatency + 10 ≤
      (process_payment wPayment defaultConfig 0 0 0 0).response.processing_time_ms :=
  ⟨le_refl 0,
    (processing_time_includes_suspensions wPayment defaultConfig 0 0 0 0
      (le_refl 0)).2⟩

/-- Two configurations with equal pool sizes give equal latencies. -/
lemma calculate_latency_pool_congr (c1 c2 : Config) (r : ℚ)
    (h : getPoolSize c1 = getPoolSize c2) :
    calculate_latency c1 r = calculate_latency c2 r := by
  simp only [calculate_latency, h]

/-- Two configurations with equal pool sizes and equal `service`
sections give equal `/health` responses. -/
lemma health_pool_congr (c1 c2 : Config)
    (hp : getPoolSize c1 = getPoolSize c2) (hs : c1.service = c2.service) :
    health c1 = health c2 := by
  simp only [health, getVersion, hp, hs]

/-- Two configurations with equal pool sizes give equal payment
traces. -/
lemma process_payment_pool_congr (payment : PaymentRequest) (c1 c2 : Config)
    (r t0 sched : ℚ) (tsec : Int) (hp : getPoolSize c1 = getPoolSize c2) :
    process_payment payment c1 r t0 sched tsec =
      process_payment payment c2 r t0 sched tsec := by
  simp only [process_payment, hp, calculate_latency_pool_congr c1 c2 r hp]

/-- C9: when the loaded configuration lacks the
`database.connection_pool_size` key (or the whole `database` section),
every reader of the pool size falls back to 50, and the latency
computation, `/health`, and the payment operation behave exactly as
with an explicit pool size of 50. -/
theorem missing_pool_key_defaults_to_50 (cfg : Config)
    (h : poolSizeRaw cfg = none) (payment : PaymentRequest)
    (r t0 sched : ℚ) (tsec : Int) :
    getPoolSize cfg = 50 ∧
    calculate_latency cfg r =
      calculate_latency
        { cfg with database := some { connection_pool_size := some 50 } } r ∧
    health cfg =
      health { cfg with database := some { connection_pool_size := some 50 } } ∧
    process_payment payment cfg r t0 sched tsec =
      process_payment payment
        { cfg with database := some { connection_pool_size := some 50 } }
        r t0 sched tsec := by
  have h50 : getPoolSize cfg = 50 := by
    simp only [getPoolSize, h, Option.getD_none]
  have hp : getPoolSize cfg =
      getPoolSize { cfg with database := some { connection_pool_size := some 50 } } := by
    rw [h50]; rfl
  exact ⟨h50, calculate_latency_pool_congr _ _ r hp,
    health_pool_congr _ _ hp rfl,
    process_payment_pool_congr payment _ _ r t0 sched tsec hp⟩

/-- A configuration whose `database` section is absent entirely, with a
populated `service` section. -/
def cfgNoDb : Config :=
  { database := none
    service := some { timeout_ms := some 100, version := some "2.0.0" } }

/-- Witness for C9: a config with no `database` section satisfies the
hypothesis, reads pool size 50, and yields the same `/health` response
as the config with an explicit pool size of 50. -/
theorem missing_pool_key_defaults_to_50_witness :
    poolSizeRaw cfgNoDb = none ∧
    getPoolSize cfgNoDb = 50 ∧
    health cfgNoDb =
      health { cfgNoDb with database := some { connection_pool_size := some 50 } } :=
  ⟨rfl, (missing_pool_key_defaults_to_50 cfgNoDb rfl wPayment 0 0 0 0).1,
    (missing_pool_key_defaults_to_50 cfgNoDb rfl wPayment 0 0 0 0).2.2.1⟩

/-- The invariant carried along any run: either the payment coroutine
has not executed its first segment yet, or all three pool-size
observations were recorded from a single configuration snapshot `g`
(and the response, once produced, uses the same snapshot's latency). -/
lemma opRun_snapshot_invariant (payment : PaymentRequest)
    (r t0 sched : ℚ) (tsec : Int) (g0 : Config) (s : OpState)
    (hrun : Relation.ReflTransGen (OpStep payment r t0 sched tsec)
      (opInit g0) s) :
    s.pc = PC.start ∨
    ∃ g : Config,
      s.spanPool = some (getPoolSize g) ∧
      s.latencyMs = some (calculate_latency g r) ∧
      s.exhausted = some (decide (getPoolSize g < 10)) ∧
      (s.pc = PC.done →
        s.resp = some (mkPaymentResponse payment (calculate_latency g r)
          t0 sched tsec)) := by
  induction hrun with
  | refl => exact Or.inl rfl
  | @tail b c hab hstep ih =>
    cases hstep with
    | segA h =>
      exact Or.inr ⟨b.config, rfl, rfl, rfl, fun hd => PC.noConfusion hd⟩
    | segB h =>
      rcases ih with hl | ⟨g, h1, h2, h3, _⟩
      · exact absurd (hl.symm.trans h) (by decide)
      · exact Or.inr ⟨g, h1, h2, h3, fun hd => PC.noConfusion hd⟩
    | segC l h hl =>
      rcases ih with hleft | ⟨g, h1, h2, h3, _⟩
      · exact absurd (hleft.symm.trans h) (by decide)
      · refine Or.inr ⟨g, h1, h2, h3, fun _ => ?_⟩
        have hlg : l = calculate_latency g r :=
          Option.some.inj (hl.symm.trans h2)
        show some (mkPaymentResponse payment l t0 sched tsec) = _
        rw [hlg]
    | reload src =>
      rcases ih with hl | ⟨g, h1, h2, h3, h4⟩
      · exact Or.inl hl
      · exact Or.inr ⟨g, h1, h2, h3, h4⟩

/-- C2: along any interleaving of the payment coroutine with reloads
(reloads running only while the coroutine is suspended, as under
asyncio's cooperative scheduling), every completed run recorded its
span attribute `db.connection_pool_size`, its acquire latency, its
pool-exhaustion warning, and its response from one and the same
configuration snapshot `g`. -/
theorem payment_reads_single_snapshot (payment : PaymentRequest)
    (r t0 sched : ℚ) (tsec : Int) (g0 : Config) (s : OpState)
    (hrun : OpRun payment r t0 sched tsec (opInit g0) s)
    (hdone : s.pc = PC.done) :
    ∃ g : Config,
      s.spanPool = some (getPoolSize g) ∧
      s.latencyMs = some (calculate_latency g r) ∧
      s.exhausted = some (decide (getPoolSize g < 10)) ∧
      s.resp = some (mkPaymentResponse payment (calculate_latency g r)
        t0 sched tsec) := by
  rcases opRun_snapshot_invariant payment r t0 sched tsec g0 s hrun with
    hl | ⟨g, h1, h2, h3, h4⟩
  · exact absurd (hl.symm.trans hdone) (by decide)
  · exact ⟨g, h1, h2, h3, h4 hdone⟩

/-- The demo's low-pool configuration (pool size 2), used as the target
of the interleaved reload in the C2 witness run. -/
def cfgLow : Config :=
  { database := some { connection_pool_size := some 2 }, service := none }

/-- C2 witness run, state after segment A from the default config. -/
def wS1 : OpState :=
  { opInit defaultConfig with
      pc := PC.sleep1
      spanPool := some (getPoolSize defaultConfig)
      latencyMs := some (calculate_latency defaultConfig 0)
      exhausted := some (decide (getPoolSize defaultConfig < 10)) }

/-- C2 witness run, state after a reload to `cfgLow` interleaved during
the first sleep. -/
def wS2 : OpState :=
  { wS1 with config := load_config (some cfgLow) }

/-- C2 witness run, state after segment B. -/
def wS3 : OpState :=
  { wS2 with pc := PC.sleep2 }

/-- C2 witness run, final state after segment C. -/
def wS4 : OpState :=
  { wS3 with
      pc := PC.done
      resp := some (mkPaymentResponse wPayment
        (calculate_latency defaultConfig 0) 0 0 0) }

/-- Witness for C2: a concrete four-step run with a reload interleaved
during the first sleep still reports all observations from the single
pre-reload snapshot. -/
theorem payment_reads_single_snapshot_witness :
    ∃ g : Config,
      wS4.spanPool = some (getPoolSize g) ∧
      wS4.latencyMs = some (calculate_latency g 0) ∧
      wS4.exhausted = some (decide (getPoolSize g < 10)) ∧
      wS4.resp = some (mkPaymentResponse wPayment (calculate_latency g 0)
        0 0 0) := by
  have hrun : OpRun wPayment 0 0 0 0 (opInit defaultConfig) wS4 :=
    Relation.ReflTransGen.tail
      (Relation.ReflTransGen.tail
        (Relation.ReflTransGen.tail
          (Relation.ReflTransGen.tail Relation.ReflTransGen.refl
            (OpStep.segA (opInit defaultConfig) rfl))
          (OpStep.reload wS1 (some cfgLow)))
        (OpStep.segB wS2 rfl))
      (OpStep.segC wS3 (calculate_latency defaultConfig 0) rfl rfl)
  exact payment_reads_single_snapshot wPayment 0 0 0 0 defaultConfig wS4
    hrun rfl
